import Mathlib

/-!
Shallow embedding of the FastAPI-Security backend (auth, products, media,
websockets, background tasks) and proofs of the specification claims.

The database is modelled as lists of rows; SQL statements become the
corresponding list operations.  The JWT library, bcrypt and the object store
are external collaborators: a token is modelled by whether it decodes under
the server secret and, if so, by its payload; the bcrypt hash is an abstract
function parameter; the object store is a list of stored objects.
-/

namespace FastAPISecurity

/-- A row of the `users` table (`username`, `hashed_password`, `avatar_url`). -/
structure UserRow where
  username : String
  hashed_password : String
  avatar_url : Option String
  deriving DecidableEq, Repr

/-- A row of the `products` table (`id`, `name`, `price`, `owner_username`). -/
structure ProductRow where
  id : Nat
  name : String
  price : Rat
  owner_username : String
  deriving DecidableEq, Repr

/-- A row of the `calculations` table (`username`, `task`, `result`). -/
structure CalcRow where
  username : String
  task : String
  result : Int
  deriving DecidableEq, Repr

/-- The relational state: `users`, `products` and `calculations` tables. -/
structure Db where
  users : List UserRow
  products : List ProductRow
  calculations : List CalcRow
  deriving DecidableEq, Repr

/-- A decoded JWT payload: the optional `sub` and `type` claims.
`payload.get("sub")` returning `None` in Python is `none` here. -/
structure Payload where
  sub : Option String
  type : Option String
  deriving DecidableEq, Repr

/-- A JWT as seen by the server: either it decodes under the server secret to
a payload, or `jwt.decode` raises `JWTError` (bad signature or expired). -/
inductive Token where
  | valid (payload : Payload)
  | invalid
  deriving DecidableEq, Repr

/-- Embeds `jwt.decode(token, SECRET_KEY, algorithms=[ALGORITHM])`: `none` models the
`JWTError` branch. -/
def jwtDecode : Token → Option Payload
  | Token.valid p => some p
  | Token.invalid => none

/-- The `Token` pydantic response model of `auth.py`. -/
structure TokenPair where
  access_token : Token
  refresh_token : Token
  token_type : String
  deriving DecidableEq, Repr

/-- Embeds `auth.py` `create_tokens`: a pair of JWTs sharing the `sub` claim, the
first with `type = "access"`, the second with `type = "refresh"`, packaged
with `token_type = "bearer"`. -/
def create_tokens (sub : String) : TokenPair :=
  { access_token := Token.valid { sub := some sub, type := some "access" }
  , refresh_token := Token.valid { sub := some sub, type := some "refresh" }
  , token_type := "bearer" }

/-- Embeds `auth.py` `get_user_from_db`:
`SELECT ... FROM users WHERE username = $1` (first matching row). -/
def get_user_from_db (users : List UserRow) (username : String) : Option UserRow :=
  users.find? (fun r => r.username == username)

/-- Embeds `auth.py` `get_current_user`: decode the bearer token, require
`payload.get("type") == "access"`, a non-`None` `sub`, and an existing user
row; every failure raises the 401 `credentials_exception`. -/
def get_current_user (db : Db) (token : Token) : Except Nat UserRow :=
  match jwtDecode token with
  | none => Except.error 401
  | some payload =>
    if payload.type ≠ some "access" then Except.error 401
    else
      match payload.sub with
      | none => Except.error 401
      | some username =>
        match get_user_from_db db.users username with
        | none => Except.error 401
        | some user => Except.ok user

/-- Embeds `auth.py` `register`: reject with 400 if the username exists, otherwise
insert `(username, bcrypt-hash(password))` and return `create_tokens`.
The bcrypt hash (`pwd_context.hash`) is the abstract parameter `hash`.
The result pairs the HTTP outcome with the database state after the call. -/
def register (db : Db) (hash : String → String) (username password : String) :
    Except Nat TokenPair × Db :=
  match get_user_from_db db.users username with
  | some _ => (Except.error 400, db)
  | none =>
    let hashed_password := hash password
    (Except.ok (create_tokens username),
     { db with users :=
        db.users ++ [{ username := username, hashed_password := hashed_password,
                       avatar_url := none }] })

/-- Embeds `auth.py` `read_users_me`: builds `user_info` (the user without its
`hashed_password`) but has no `return` statement, so the Python function
returns `None`. -/
def read_users_me (current_user : UserRow) : Option String :=
  let _user_info := current_user.username
  none

/-- The `/auth/me` endpoint: run the `get_current_user` dependency, then the
handler body; a succeeding request gets status 200 with the return value of
`read_users_me` as body. -/
def read_users_me_endpoint (db : Db) (token : Token) : Except Nat (Option String) :=
  match get_current_user db token with
  | Except.error c => Except.error c
  | Except.ok user => Except.ok (read_users_me user)

/-- Embeds `routers/products.py` `get_products`:
`SELECT id, name, price, owner_username FROM products WHERE owner_username = $1`;
an empty fetch returns the empty list, otherwise the records themselves. -/
def get_products (db : Db) (current_user : String) : List ProductRow :=
  let products_records := db.products.filter (fun p => p.owner_username == current_user)
  if products_records.isEmpty then [] else products_records

/-- Embeds `routers/products.py` `delete_product`: look up the row with the given id;
404 if absent, 403 if `owner_username` differs from the requesting user, else
`DELETE FROM products WHERE id = $1` and status 204.  The result pairs the
HTTP status with the database state after the call. -/
def delete_product (db : Db) (username : String) (product_id : Nat) : Nat × Db :=
  match db.products.find? (fun p => p.id == product_id) with
  | none => (404, db)
  | some product_row =>
    if product_row.owner_username ≠ username then (403, db)
    else (204, { db with products := db.products.filter (fun p => p.id != product_id) })

/-- Embeds the `websocket.py` / `main.py` `ConnectionManager`: a list of active
WebSocket connections, identified here by natural numbers. -/
structure ConnectionManager where
  active_connections : List Nat
  deriving DecidableEq, Repr

/-- Embeds `ConnectionManager.connect`: accept the handshake, then append the
socket to the end of `active_connections`. -/
def ConnectionManager.connect (m : ConnectionManager) (websocket : Nat) : ConnectionManager :=
  { m with active_connections := m.active_connections ++ [websocket] }

/-- Embeds `ConnectionManager.disconnect`: remove the socket if it is in the list
(`list.remove` drops the first occurrence), otherwise do nothing. -/
def ConnectionManager.disconnect (m : ConnectionManager) (websocket : Nat) : ConnectionManager :=
  if websocket ∈ m.active_connections then
    { m with active_connections := m.active_connections.erase websocket }
  else m

/-- Embeds `ConnectionManager.broadcast`: send the text to every connection in list
order.  Returned are the send events `(connection, message)` in the order
they are performed, together with the (unchanged) manager. -/
def ConnectionManager.broadcast (m : ConnectionManager) (message : String) :
    List (Nat × String) × ConnectionManager :=
  (m.active_connections.map (fun connection => (connection, message)), m)

/-- Result of a WebSocket connection attempt: the socket is closed with a
code and optional reason, or the authenticated client is connected. -/
inductive WsResult where
  | closed (code : Nat) (reason : Option String)
  | connected (username : String)
  deriving DecidableEq, Repr

/-- Embeds `websocket.py` `websocket_notification`: decode the query token
(`JWTError` closes with 1008), require `type == "access"`, then the falsy
check `not username or not await get_user_from_db(pool, username)` (a missing
or empty `sub`, or an unknown user, closes with 1008); only then
`manager.connect`. -/
def websocket_notification (db : Db) (m : ConnectionManager) (websocket : Nat)
    (token : Token) : WsResult × ConnectionManager :=
  match jwtDecode token with
  | none => (WsResult.closed 1008 (some "Invalid or expired token"), m)
  | some payload =>
    if payload.type ≠ some "access" then
      (WsResult.closed 1008 (some "Invalid token type"), m)
    else
      match payload.sub with
      | none => (WsResult.closed 1008 (some "User not found"), m)
      | some username =>
        if username.isEmpty then (WsResult.closed 1008 (some "User not found"), m)
        else if (get_user_from_db db.users username).isNone then
          (WsResult.closed 1008 (some "User not found"), m)
        else (WsResult.connected username, m.connect websocket)

/-- Embeds `websocket.py` `websocket_chat`: same checks as
`websocket_notification`, closing with 1008 and no reason text. -/
def websocket_chat (db : Db) (m : ConnectionManager) (websocket : Nat)
    (token : Token) : WsResult × ConnectionManager :=
  match jwtDecode token with
  | none => (WsResult.closed 1008 none, m)
  | some payload =>
    if payload.type ≠ some "access" then (WsResult.closed 1008 none, m)
    else
      match payload.sub with
      | none => (WsResult.closed 1008 none, m)
      | some username =>
        if username.isEmpty then (WsResult.closed 1008 none, m)
        else if (get_user_from_db db.users username).isNone then
          (WsResult.closed 1008 none, m)
        else (WsResult.connected username, m.connect websocket)

/-- Embeds `websocket.py` `websocket_products`: decode the token, require
`type == "access"`, then `username is None or await get_user_from_db(pool,
username) is None` closes with 1008; only then `manager.connect`. -/
def websocket_products (db : Db) (m : ConnectionManager) (websocket : Nat)
    (token : Token) : WsResult × ConnectionManager :=
  match jwtDecode token with
  | none => (WsResult.closed 1008 (some "Invalid token"), m)
  | some payload =>
    if payload.type ≠ some "access" then
      (WsResult.closed 1008 (some "Invalid token type"), m)
    else
      match payload.sub with
      | none => (WsResult.closed 1008 (some "User not found"), m)
      | some username =>
        if (get_user_from_db db.users username).isNone then
          (WsResult.closed 1008 (some "User not found"), m)
        else (WsResult.connected username, m.connect websocket)

/-- Embeds `main.py` `websocket_endpoint` (`/ws/products`): decode the token and
check `type == "access"` as above, but the user-existence test is
`username is None or get_user(username) is None` with `get_user` NOT
awaited: the call yields a coroutine object, which is never `None`, so once
`sub` is present the check passes regardless of the `users` table. -/
def websocket_endpoint (db : Db) (m : ConnectionManager) (websocket : Nat)
    (token : Token) : WsResult × ConnectionManager :=
  match jwtDecode token with
  | none => (WsResult.closed 1008 (some "Invalid token"), m)
  | some payload =>
    if payload.type ≠ some "access" then
      (WsResult.closed 1008 (some "Invalid token type"), m)
    else
      match payload.sub with
      | none => (WsResult.closed 1008 (some "User not found"), m)
      | some username =>
        let _unused := db.users
        (WsResult.connected username, m.connect websocket)

/-- Outcome of an upload handler.  `returnedException` records that the
handler RETURNED an `HTTPException` object as its value (so the framework
serializes it as the body of an ordinary 200 response); `raisedException`
records a raised `HTTPException` which the framework maps to its status
code; `uploaded` is the normal success body. -/
inductive MediaResult where
  | returnedException (status_code : Nat) (detail : String)
  | raisedException (status_code : Nat) (detail : String)
  | uploaded (filename : String) (url : String)
  deriving DecidableEq, Repr

/-- The HTTP status the framework actually sends for each outcome: a raised
`HTTPException` becomes its status code; a returned value — including a
returned `HTTPException` object — is serialized with default status 200. -/
def MediaResult.httpStatus : MediaResult → Nat
  | MediaResult.returnedException _ _ => 200
  | MediaResult.raisedException status_code _ => status_code
  | MediaResult.uploaded _ _ => 200

/-- Embeds the Python test `str.startswith(pre)` on the character lists. -/
def pyStartsWith (s pre : String) : Bool := pre.data.isPrefixOf s.data

/-- Embeds `s3_service.py` `S3Service.upload_file`: store the object and return its
public URL.  The object store is a list of stored file names; the generated
UUID name is abstracted by the original file name. -/
def s3_upload_file (s3 : List String) (filename : String) : String × List String :=
  ("http://localhost:9000/bucket/" ++ filename, s3 ++ [filename])

/-- Embeds `routers/media.py` `upload_file` (`POST /media/upload`): if the content
type does not start with `"image/"`, the 400 `HTTPException` with detail "File must be an image" is RETURNED
(not raised); otherwise the file is uploaded and the
filename/url body returned.  Paired with the object store after the call. -/
def upload_file (s3 : List String) (content_type filename : String) :
    MediaResult × List String :=
  if ¬ pyStartsWith content_type "image/" then
    (MediaResult.returnedException 400 "File must be an image", s3)
  else
    let (url, s3') := s3_upload_file s3 filename
    (MediaResult.uploaded filename url, s3')

/-- Embeds `routers/users.py` `update_avatar` (`PATCH /users/me/avatar`): if the
content type does not start with `"image/"`, raise `HTTPException(400,
"File must be an image")`; otherwise upload the file and
`UPDATE users SET avatar_url = $1 WHERE username = $2`. -/
def update_avatar (db : Db) (s3 : List String) (current_user : String)
    (content_type filename : String) : (MediaResult × List String) × Db :=
  if ¬ pyStartsWith content_type "image/" then
    ((MediaResult.raisedException 400 "File must be an image", s3), db)
  else
    let (avatar_url, s3') := s3_upload_file s3 filename
    ((MediaResult.uploaded filename avatar_url, s3'),
     { db with users := db.users.map (fun r =>
        if r.username == current_user then { r with avatar_url := some avatar_url } else r) })

/-- Embeds `INSERT INTO calculations (username, task, result) VALUES ($1, $2, $3)`. -/
def insertCalc (db : Db) (username task : String) (result : Int) : Db :=
  { db with calculations :=
      db.calculations ++ [{ username := username, task := task, result := result }] }

/-- The loop `result = 1; for i in range(1, n + 1): result *= i` of the
factorial tasks (for a non-positive `n`, `range(1, n + 1)` is empty). -/
def pyFactorial (n : Int) : Int :=
  (List.range' 1 n.toNat).foldl (fun result i => result * Int.ofNat i) 1

/-- Embeds `sum(range(start, end + 1))` of the sum tasks. -/
def pySumRange (start end_ : Int) : Int :=
  ((List.range' 0 (end_ + 1 - start).toNat).map (fun i => start + (i : Int))).foldl
    (fun acc x => acc + x) 0

/-- Models one run of the tenacity `@retry(stop=stop_after_attempt(k + 1), ...)`
wrapper: attempt `i` runs `f i`; a success is returned at once, a raising
attempt is retried while retries remain, and the outcome of the last allowed
attempt propagates to the caller.  The second component counts how many
times the wrapped function was invoked. -/
def retryRun {E A : Type} (f : Nat → Except E A) : Nat → Nat → Except E A × Nat
  | i, 0 => (f i, 1)
  | i, Nat.succ r =>
    match f i with
    | Except.ok a => (Except.ok a, 1)
    | Except.error _ => ((retryRun f (i + 1) r).1, (retryRun f (i + 1) r).2 + 1)

/-- Embeds `@retry(stop=stop_after_attempt(3), wait=wait_fixed(2))` of `main.py`:
the first attempt plus at most two retries. -/
def retry_three {E A : Type} (f : Nat → Except E A) : Except E A × Nat :=
  retryRun f 0 2

/-- One attempt of the body of `main.py` `compute_factorial_async`: compute
the factorial loop, then insert the `calculations` row.  The external
database either accepts the insert on attempt `i` (`insert_ok i = true`) or
raises, in which case the body re-raises for the retry decorator. -/
def factorial_attempt (db : Db) (username : String) (n : Int) (insert_ok : Nat → Bool)
    (i : Nat) : Except Unit Db :=
  let result := pyFactorial n
  if insert_ok i then
    Except.ok (insertCalc db username ("factorial of " ++ toString n) result)
  else Except.error ()

/-- Embeds `main.py` `compute_factorial_async`: the factorial body wrapped in the
three-attempt retry decorator. -/
def compute_factorial_async (db : Db) (username : String) (n : Int)
    (insert_ok : Nat → Bool) : Except Unit Db × Nat :=
  retry_three (factorial_attempt db username n insert_ok)

/-- One attempt of the body of `main.py` `compute_sum_range`, analogous to
`factorial_attempt`. -/
def sum_range_attempt (db : Db) (username : String) (start end_ : Int)
    (insert_ok : Nat → Bool) (i : Nat) : Except Unit Db :=
  let result := pySumRange start end_
  if insert_ok i then
    Except.ok (insertCalc db username
      ("sum from " ++ toString start ++ " to " ++ toString end_) result)
  else Except.error ()

/-- Embeds `main.py` `compute_sum_range`: the sum body wrapped in the three-attempt
retry decorator. -/
def compute_sum_range (db : Db) (username : String) (start end_ : Int)
    (insert_ok : Nat → Bool) : Except Unit Db × Nat :=
  retry_three (sum_range_attempt db username start end_ insert_ok)

/-- Embeds `bg_tasks.py` `start_factorial_computation` (`POST /compute/factorial`):
reject `n <= 0` with 400 before anything is enqueued, otherwise enqueue the
Celery task (`compute_factorial_task.delay`) and answer 202.  The result
pairs the HTTP outcome with the task queue after the call. -/
def start_factorial_computation (queue : List (String × Int)) (username : String)
    (n : Int) : Except Nat String × List (String × Int) :=
  if n ≤ 0 then (Except.error 400, queue)
  else
    (Except.ok ("Задача по вычислению факториала " ++ toString n ++ " принята в обработку"),
     queue ++ [(username, n)])

/-- Embeds `bg_tasks.py` `compute_factorial_task` (successful run): compute the
factorial loop, insert the `calculations` row, and return the result. -/
def compute_factorial_task (db : Db) (username : String) (n : Int) : Int × Db :=
  let result := pyFactorial n
  (result, insertCalc db username ("factorial of " ++ toString n) result)

/-! ## Helper lemmas -/

/-- The `if not products: return []` guard of the product listing is the
identity on the fetched record list. -/
theorem if_isEmpty_eq (l : List ProductRow) :
    (if l.isEmpty then ([] : List ProductRow) else l) = l := by
  cases l <;> rfl

/-! ## Claim theorems -/

/-- C9: for every validly authenticated request, `GET /auth/me` returns an
empty (null) body with status 200: `read_users_me` builds the sanitized user
record but contains no return statement, so the value of the handler is `None`
and the user info is never delivered. -/
theorem read_users_me_returns_none (db : Db) (token : Token) (user : UserRow)
    (hauth : get_current_user db token = Except.ok user) :
    read_users_me_endpoint db token = Except.ok none := by
  simp [read_users_me_endpoint, hauth, read_users_me]

/-- Witness for C9: a concrete database and access token that authenticate,
for which `/auth/me` answers with a `None` body. -/
theorem read_users_me_returns_none_witness :
    read_users_me_endpoint
      { users := [{ username := "alice", hashed_password := "h", avatar_url := none }],
        products := [], calculations := [] }
      (Token.valid { sub := some "alice", type := some "access" }) = Except.ok none :=
  read_users_me_returns_none _ _
    { username := "alice", hashed_password := "h", avatar_url := none } rfl

/-- C10: a bearer token that decodes under the server secret but whose
`type` claim is not `"access"` makes `get_current_user` raise 401; in
particular the refresh token of every issued pair never authorizes an
endpoint protected by this dependency. -/
theorem get_current_user_rejects_non_access (db : Db) (token : Token) (payload : Payload)
    (hdec : jwtDecode token = some payload) (htype : payload.type ≠ some "access") :
    get_current_user db token = Except.error 401 ∧
    ∀ s, get_current_user db (create_tokens s).refresh_token = Except.error 401 := by
  constructor
  · simp only [get_current_user, hdec]
    rw [if_pos htype]
  · intro s
    rfl

/-- Witness for C10: the refresh token issued for `"alice"` is rejected with
401 even though `"alice"` is a registered user. -/
theorem get_current_user_rejects_non_access_witness :
    get_current_user
      { users := [{ username := "alice", hashed_password := "h", avatar_url := none }],
        products := [], calculations := [] }
      (create_tokens "alice").refresh_token = Except.error 401 :=
  (get_current_user_rejects_non_access
    { users := [{ username := "alice", hashed_password := "h", avatar_url := none }],
      products := [], calculations := [] }
    (create_tokens "alice").refresh_token
    { sub := some "alice", type := some "refresh" } rfl (by decide)).1

/-- C4: `GET /products/` returns exactly the product rows owned by the
requesting user, and the response is identical for any two database states
that agree on the rows owned by that user (owner-scoped noninterference;
the states may differ arbitrarily in rows owned by other users). -/
theorem get_products_owner_scoped (db1 db2 : Db) (u : String)
    (hagree : db1.products.filter (fun p => p.owner_username == u) =
              db2.products.filter (fun p => p.owner_username == u)) :
    get_products db1 u = db1.products.filter (fun p => p.owner_username == u) ∧
    get_products db1 u = get_products db2 u := by
  have key : ∀ db : Db,
      get_products db u = db.products.filter (fun p => p.owner_username == u) := by
    intro db
    simp only [get_products]
    exact if_isEmpty_eq _
  exact ⟨key db1, by rw [key db1, key db2, hagree]⟩

/-- Witness for C4: two databases that agree on the products of `"alice"` but
not on those of `"bob"` yield the same response to `"alice"`: her one row. -/
theorem get_products_owner_scoped_witness :
    get_products
      { users := [],
        products := [{ id := 1, name := "apple", price := 3, owner_username := "alice" },
                     { id := 2, name := "book", price := 7, owner_username := "bob" }],
        calculations := [] } "alice" =
      List.filter (fun p => p.owner_username == "alice")
        [{ id := 1, name := "apple", price := 3, owner_username := "alice" },
         { id := 2, name := "book", price := 7, owner_username := "bob" }] ∧
    get_products
      { users := [],
        products := [{ id := 1, name := "apple", price := 3, owner_username := "alice" },
                     { id := 2, name := "book", price := 7, owner_username := "bob" }],
        calculations := [] } "alice" =
    get_products
      { users := [],
        products := [{ id := 1, name := "apple", price := 3, owner_username := "alice" }],
        calculations := [] } "alice" :=
  get_products_owner_scoped _ _ "alice" (by decide)

/-- C3: `POST /auth/register` rejects an existing username with 400 and an
unchanged `users` table — so registering the same username twice leaves
exactly one row — and otherwise inserts exactly the row
`(username, bcrypt-hash(password))` and returns the bearer token pair. -/
theorem register_spec (db : Db) (hash : String → String) (u p : String) :
    (∀ r, get_user_from_db db.users u = some r →
        register db hash u p = (Except.error 400, db)) ∧
    (get_user_from_db db.users u = none →
        register db hash u p =
          (Except.ok (create_tokens u),
           { db with users := db.users ++
              [{ username := u, hashed_password := hash p, avatar_url := none }] }) ∧
        (create_tokens u).token_type = "bearer" ∧
        (register db hash u p).2.users.countP (fun r => r.username == u) = 1 ∧
        register (register db hash u p).2 hash u p =
          (Except.error 400, (register db hash u p).2)) := by
  constructor
  · intro r h
    simp [register, h]
  · intro h
    have hnone : db.users.find? (fun r => r.username == u) = none := h
    have hzero : db.users.countP (fun r => r.username == u) = 0 :=
      List.countP_eq_zero.mpr (List.find?_eq_none.mp hnone)
    have hreg : register db hash u p =
        (Except.ok (create_tokens u),
         { db with users := db.users ++
            [{ username := u, hashed_password := hash p, avatar_url := none }] }) := by
      simp [register, h]
    have hfind2 : get_user_from_db (register db hash u p).2.users u =
        some { username := u, hashed_password := hash p, avatar_url := none } := by
      rw [hreg]
      simp only [get_user_from_db, List.find?_append, hnone]
      simp
    refine ⟨hreg, rfl, ?_, ?_⟩
    · rw [hreg]
      simp [hzero]
    · generalize hgen : (register db hash u p).2 = db2 at hfind2 ⊢
      simp [register, hfind2]

/-- Witness for C3: registering `"alice"` in the empty database inserts her
row and returns the token pair; the checks of the second conjunct all hold. -/
theorem register_spec_witness :
    register { users := [], products := [], calculations := [] }
          (fun s => "bcrypt-" ++ s) "alice" "pw" =
        (Except.ok (create_tokens "alice"),
         { users := [{ username := "alice", hashed_password := "bcrypt-pw",
                       avatar_url := none }],
           products := [], calculations := [] }) ∧
    register
        (register { users := [], products := [], calculations := [] }
          (fun s => "bcrypt-" ++ s) "alice" "pw").2 (fun s => "bcrypt-" ++ s) "alice" "pw" =
      (Except.error 400,
       (register { users := [], products := [], calculations := [] }
          (fun s => "bcrypt-" ++ s) "alice" "pw").2) := by
  have h := (register_spec { users := [], products := [], calculations := [] }
    (fun s => "bcrypt-" ++ s) "alice" "pw").2 rfl
  exact ⟨h.1, h.2.2.2⟩

/-- Deleting by id with `DELETE FROM products WHERE id = $1` removes exactly
the found row when the `id` column is duplicate-free. -/
theorem filter_ne_eq_erase (pid : Nat) :
    ∀ (l : List ProductRow) (row : ProductRow),
      (l.map ProductRow.id).Nodup →
      l.find? (fun p => p.id == pid) = some row →
      l.filter (fun p => p.id != pid) = l.erase row := by
  intro l
  induction l with
  | nil =>
    intro row _ hfind
    simp at hfind
  | cons a t ih =>
    intro row hnodup hfind
    rw [List.map_cons, List.nodup_cons] at hnodup
    by_cases ha : a.id = pid
    · rw [List.find?_cons_of_pos _ (by simp [ha])] at hfind
      injection hfind with hfind
      subst hfind
      rw [List.filter_cons_of_neg (by simp [ha]), List.erase_cons_head,
        List.filter_eq_self]
      intro x hx
      have hxid : x.id ≠ pid := by
        intro hxe
        exact hnodup.1 (ha ▸ hxe ▸ List.mem_map.mpr ⟨x, hx, rfl⟩)
      simp [hxid]
    · rw [List.find?_cons_of_neg _ (by simp [ha])] at hfind
      have hrow_id : row.id = pid := by simpa using List.find?_some hfind
      have hane : ¬ (a == row) := by
        simp only [beq_iff_eq]
        intro he
        exact ha (he ▸ hrow_id)
      rw [List.filter_cons_of_pos (by simp [ha]), List.erase_cons_tail hane,
        ih row hnodup.2 hfind]

/-- C1: authenticated `DELETE /products/{id}`: 404 with the table unchanged
when no row has that id; 403 with the table unchanged when the row is owned
by someone else; status 204 and exactly that one row deleted when the
requester owns it (ids are unique, as the primary-key column). -/
theorem delete_product_spec (db : Db) (u : String) (pid : Nat)
    (hnodup : (db.products.map ProductRow.id).Nodup) :
    (db.products.find? (fun p => p.id == pid) = none →
        delete_product db u pid = (404, db)) ∧
    (∀ row, db.products.find? (fun p => p.id == pid) = some row →
        row.owner_username ≠ u → delete_product db u pid = (403, db)) ∧
    (∀ row, db.products.find? (fun p => p.id == pid) = some row →
        row.owner_username = u →
        delete_product db u pid = (204, { db with products := db.products.erase row })) := by
  refine ⟨?_, ?_, ?_⟩
  · intro h
    simp [delete_product, h]
  · intro row h hne
    simp [delete_product, h, hne]
  · intro row h heq
    simp only [delete_product, h]
    rw [if_neg (by simp [heq]), filter_ne_eq_erase pid db.products row hnodup h]

/-- Witness for C1: `"alice"` deletes her product 1; the hypotheses of the
other branches are checked on the same concrete table. -/
theorem delete_product_spec_witness :
    delete_product
      { users := [],
        products := [{ id := 1, name := "apple", price := 3, owner_username := "alice" },
                     { id := 2, name := "book", price := 7, owner_username := "bob" }],
        calculations := [] } "alice" 1 =
      (204,
       { users := [],
         products := [{ id := 2, name := "book", price := 7, owner_username := "bob" }],
         calculations := [] }) ∧
    delete_product
      { users := [],
        products := [{ id := 1, name := "apple", price := 3, owner_username := "alice" },
                     { id := 2, name := "book", price := 7, owner_username := "bob" }],
        calculations := [] } "alice" 2 =
      (403,
       { users := [],
         products := [{ id := 1, name := "apple", price := 3, owner_username := "alice" },
                      { id := 2, name := "book", price := 7, owner_username := "bob" }],
         calculations := [] }) ∧
    delete_product
      { users := [],
        products := [{ id := 1, name := "apple", price := 3, owner_username := "alice" },
                     { id := 2, name := "book", price := 7, owner_username := "bob" }],
        calculations := [] } "alice" 5 =
      (404,
       { users := [],
         products := [{ id := 1, name := "apple", price := 3, owner_username := "alice" },
                      { id := 2, name := "book", price := 7, owner_username := "bob" }],
         calculations := [] }) := by
  refine ⟨?_, ?_, ?_⟩
  · exact (delete_product_spec _ "alice" 1 (by decide)).2.2
      { id := 1, name := "apple", price := 3, owner_username := "alice" } (by decide) rfl
  · exact (delete_product_spec _ "alice" 2 (by decide)).2.1
      { id := 2, name := "book", price := 7, owner_username := "bob" } (by decide) (by decide)
  · exact (delete_product_spec _ "alice" 5 (by decide)).1 (by decide)

/-- C8: `broadcast(m)` sends the identical text exactly once to each active
connection, iterating in list order, and leaves `active_connections`
unchanged; `connect` appends the accepted socket at the end; `disconnect`
removes the socket when present and is a no-op otherwise. -/
theorem connection_manager_spec (m : ConnectionManager) (message : String) (ws : Nat) :
    (m.broadcast message).1 = m.active_connections.map (fun c => (c, message)) ∧
    (m.broadcast message).2 = m ∧
    (m.active_connections.Nodup → ∀ c ∈ m.active_connections,
        ((m.broadcast message).1.map Prod.fst).count c = 1) ∧
    (m.connect ws).active_connections = m.active_connections ++ [ws] ∧
    (ws ∈ m.active_connections →
        (m.disconnect ws).active_connections = m.active_connections.erase ws) ∧
    (ws ∉ m.active_connections → m.disconnect ws = m) := by
  refine ⟨rfl, rfl, ?_, rfl, ?_, ?_⟩
  · intro hnodup c hc
    calc ((m.broadcast message).1.map Prod.fst).count c
        = m.active_connections.count c := by
          have hid : (Prod.fst ∘ fun connection : Nat => (connection, message)) = id := rfl
          simp [ConnectionManager.broadcast, List.map_map, hid]
      _ = 1 := List.count_eq_one_of_mem hnodup hc
  · intro hmem
    simp [ConnectionManager.disconnect, hmem]
  · intro hmem
    simp [ConnectionManager.disconnect, hmem]

/-- Witness for C8: broadcasting to the manager holding sockets 1 and 2
produces each send once, in order, leaving the list unchanged; connecting 3
appends it, and disconnecting 2 erases it. -/
theorem connection_manager_spec_witness :
    (ConnectionManager.broadcast { active_connections := [1, 2] } "hi").1 =
      [(1, "hi"), (2, "hi")] ∧
    (ConnectionManager.broadcast { active_connections := [1, 2] } "hi").2 =
      { active_connections := [1, 2] } ∧
    ((ConnectionManager.broadcast { active_connections := [1, 2] } "hi").1.map
        Prod.fst).count 2 = 1 ∧
    (ConnectionManager.connect { active_connections := [1, 2] } 3).active_connections =
      [1, 2, 3] ∧
    (ConnectionManager.disconnect { active_connections := [1, 2] } 2).active_connections =
      [1] := by
  have h := connection_manager_spec { active_connections := [1, 2] } "hi" 2
  refine ⟨h.1, h.2.1, h.2.2.1 (by decide) 2 (by decide), ?_, h.2.2.2.2.1 (by decide)⟩
  exact (connection_manager_spec { active_connections := [1, 2] } "hi" 3).2.2.2.1

/-- The retry wrapper never invokes the wrapped function more than
`retries + 1` times. -/
theorem retryRun_count_le {E A : Type} (f : Nat → Except E A) :
    ∀ (r i : Nat), (retryRun f i r).2 ≤ r + 1 := by
  intro r
  induction r with
  | zero =>
    intro i
    simp [retryRun]
  | succ r ih =>
    intro i
    simp only [retryRun]
    cases f i with
    | ok a => simp
    | error e =>
      simpa using Nat.succ_le_succ (ih (i + 1))

/-- C6: both decorated compute functions are attempted at most three times:
a successful invocation returns at once and is never retried, a raising
invocation is retried, and after the third failed attempt the error
propagates to the caller, so the wrapper terminates within three
invocations of the wrapped body (`insert_ok i` tells whether the external
database accepts the insert of attempt `i`). -/
theorem compute_retry_spec (db : Db) (username : String) (n start end_ : Int)
    (insert_ok : Nat → Bool) :
    (compute_factorial_async db username n insert_ok).2 ≤ 3 ∧
    (compute_sum_range db username start end_ insert_ok).2 ≤ 3 ∧
    (insert_ok 0 = true →
        compute_factorial_async db username n insert_ok =
          (Except.ok (insertCalc db username ("factorial of " ++ toString n)
            (pyFactorial n)), 1)) ∧
    (insert_ok 0 = false → insert_ok 1 = true →
        compute_factorial_async db username n insert_ok =
          (Except.ok (insertCalc db username ("factorial of " ++ toString n)
            (pyFactorial n)), 2)) ∧
    (insert_ok 0 = false → insert_ok 1 = false → insert_ok 2 = true →
        compute_factorial_async db username n insert_ok =
          (Except.ok (insertCalc db username ("factorial of " ++ toString n)
            (pyFactorial n)), 3)) ∧
    (insert_ok 0 = false → insert_ok 1 = false → insert_ok 2 = false →
        compute_factorial_async db username n insert_ok = (Except.error (), 3)) ∧
    (insert_ok 0 = true →
        compute_sum_range db username start end_ insert_ok =
          (Except.ok (insertCalc db username
            ("sum from " ++ toString start ++ " to " ++ toString end_)
            (pySumRange start end_)), 1)) ∧
    (insert_ok 0 = false → insert_ok 1 = false → insert_ok 2 = false →
        compute_sum_range db username start end_ insert_ok = (Except.error (), 3)) := by
  refine ⟨retryRun_count_le _ 2 0, retryRun_count_le _ 2 0, ?_, ?_, ?_, ?_, ?_, ?_⟩
  · intro h0
    simp [compute_factorial_async, retry_three, retryRun, factorial_attempt, h0]
  · intro h0 h1
    simp [compute_factorial_async, retry_three, retryRun, factorial_attempt, h0, h1]
  · intro h0 h1 h2
    simp [compute_factorial_async, retry_three, retryRun, factorial_attempt, h0, h1, h2]
  · intro h0 h1 h2
    simp [compute_factorial_async, retry_three, retryRun, factorial_attempt, h0, h1, h2]
  · intro h0
    simp [compute_sum_range, retry_three, retryRun, sum_range_attempt, h0]
  · intro h0 h1 h2
    simp [compute_sum_range, retry_three, retryRun, sum_range_attempt, h0, h1, h2]

/-- Witness for C6: when the insert fails on attempts 0 and 1 and succeeds
on attempt 2, the factorial task is invoked exactly three times and
succeeds; when it always fails, the error propagates after three calls. -/
theorem compute_retry_spec_witness :
    (compute_factorial_async { users := [], products := [], calculations := [] }
        "alice" 3 (fun i => i == 2)).2 ≤ 3 ∧
    compute_factorial_async { users := [], products := [], calculations := [] }
        "alice" 3 (fun i => i == 2) =
      (Except.ok (insertCalc { users := [], products := [], calculations := [] }
        "alice" ("factorial of " ++ toString (3 : Int)) (pyFactorial 3)), 3) ∧
    compute_sum_range { users := [], products := [], calculations := [] }
        "alice" 1 4 (fun _ => false) = (Except.error (), 3) := by
  have h := compute_retry_spec { users := [], products := [], calculations := [] }
    "alice" 3 1 4 (fun i => i == 2)
  have h' := compute_retry_spec { users := [], products := [], calculations := [] }
    "alice" 3 1 4 (fun _ => false)
  exact ⟨h.1, h.2.2.2.2.1 rfl rfl rfl, h'.2.2.2.2.2.2.2 rfl rfl rfl⟩

/-- The loop `result = 1; for i in range(1, k + 1): result *= i` computes
the mathematical factorial. -/
theorem pyFactorial_loop_eq (k : Nat) :
    (List.range' 1 k).foldl (fun result i => result * Int.ofNat i) 1 =
      (Nat.factorial k : Int) := by
  induction k with
  | zero => rfl
  | succ k ih =>
    rw [List.range'_concat, List.foldl_append, ih]
    simp [Nat.factorial_succ]
    ring

/-- C7: `POST /compute/factorial` rejects `n <= 0` with HTTP 400 before any
task is enqueued; for `n >= 1` the background task computes the loop product
`1*2*...*n`, equal to `n!`, returns it, and records exactly one
`calculations` row `(username, "factorial of n", n!)`. -/
theorem factorial_computation_spec (queue : List (String × Int)) (db : Db)
    (username : String) (n : Int) :
    (n ≤ 0 → start_factorial_computation queue username n = (Except.error 400, queue)) ∧
    (1 ≤ n →
      start_factorial_computation queue username n =
        (Except.ok ("Задача по вычислению факториала " ++ toString n ++
          " принята в обработку"), queue ++ [(username, n)]) ∧
      (compute_factorial_task db username n).1 = (Nat.factorial n.toNat : Int) ∧
      (compute_factorial_task db username n).2 =
        { db with calculations := db.calculations ++
            [{ username := username, task := "factorial of " ++ toString n,
               result := (Nat.factorial n.toNat : Int) }] }) := by
  have hfac : pyFactorial n = (Nat.factorial n.toNat : Int) :=
    pyFactorial_loop_eq n.toNat
  constructor
  · intro h
    simp [start_factorial_computation, h]
  · intro h
    have hpos : ¬ n ≤ 0 := by omega
    refine ⟨by simp [start_factorial_computation, hpos], ?_, ?_⟩
    · simp [compute_factorial_task, hfac]
    · simp [compute_factorial_task, insertCalc, hfac]

/-- Witness for C7: `n = -1` is rejected with 400 and nothing enqueued;
`n = 5` is enqueued and the task returns `120 = 5!`, recording its row. -/
theorem factorial_computation_spec_witness :
    start_factorial_computation [] "alice" (-1) = (Except.error 400, []) ∧
    (compute_factorial_task { users := [], products := [], calculations := [] }
        "alice" 5).1 = 120 ∧
    (compute_factorial_task { users := [], products := [], calculations := [] }
        "alice" 5).2 =
      { users := [], products := [],
        calculations := [{ username := "alice", task := "factorial of 5",
                           result := 120 }] } := by
  have h5 := (factorial_computation_spec [] { users := [], products := [], calculations := [] }
    "alice" 5).2 (by norm_num)
  refine ⟨(factorial_computation_spec [] { users := [], products := [], calculations := [] }
    "alice" (-1)).1 (by norm_num), h5.2.1, ?_⟩
  rw [h5.2.2]
  rfl

/-- C2 (failing part executed on the code): a token that decodes with
`type = "access"` and `sub = "ghost"` while the `users` table is empty.  The
three handlers of `websocket.py` close the socket with code 1008 and leave
the active-connection list untouched, but the `main.py` `websocket_endpoint`
(`/ws/products`) accepts the connection and appends it: its user-existence
check calls `get_user` without `await`, so the returned coroutine object is
never `None` and the unknown user is let through. -/
theorem websocket_unknown_user_bug :
    websocket_notification { users := [], products := [], calculations := [] }
        { active_connections := [] } 7
        (Token.valid { sub := some "ghost", type := some "access" }) =
      (WsResult.closed 1008 (some "User not found"), { active_connections := [] }) ∧
    websocket_chat { users := [], products := [], calculations := [] }
        { active_connections := [] } 7
        (Token.valid { sub := some "ghost", type := some "access" }) =
      (WsResult.closed 1008 none, { active_connections := [] }) ∧
    websocket_products { users := [], products := [], calculations := [] }
        { active_connections := [] } 7
        (Token.valid { sub := some "ghost", type := some "access" }) =
      (WsResult.closed 1008 (some "User not found"), { active_connections := [] }) ∧
    websocket_endpoint { users := [], products := [], calculations := [] }
        { active_connections := [] } 7
        (Token.valid { sub := some "ghost", type := some "access" }) =
      (WsResult.connected "ghost", { active_connections := [7] }) ∧
    websocket_endpoint { users := [], products := [], calculations := [] }
        { active_connections := [] } 7 Token.invalid =
      (WsResult.closed 1008 (some "Invalid token"), { active_connections := [] }) ∧
    websocket_endpoint { users := [], products := [], calculations := [] }
        { active_connections := [] } 7
        (Token.valid { sub := some "ghost", type := some "refresh" }) =
      (WsResult.closed 1008 (some "Invalid token type"), { active_connections := [] }) := by
  refine ⟨rfl, rfl, rfl, rfl, rfl, by decide⟩

/-- C5 (evaluated at the failing input): a non-image upload.  On
`PATCH /users/me/avatar` the `HTTPException(400)` is raised, the framework
answers 400 and nothing reaches the object store; but on
`POST /media/upload` the handler RETURNS the `HTTPException` instead of
raising it, so the framework serializes it as an ordinary body with HTTP
status 200 (nothing is uploaded there either). -/
theorem media_upload_status_bug :
    upload_file [] "text/plain" "notes.txt" =
      (MediaResult.returnedException 400 "File must be an image", []) ∧
    (upload_file [] "text/plain" "notes.txt").1.httpStatus = 200 ∧
    update_avatar { users := [{ username := "alice", hashed_password := "h",
                                avatar_url := none }],
                    products := [], calculations := [] }
        [] "alice" "text/plain" "notes.txt" =
      ((MediaResult.raisedException 400 "File must be an image", []),
       { users := [{ username := "alice", hashed_password := "h", avatar_url := none }],
         products := [], calculations := [] }) ∧
    (update_avatar { users := [{ username := "alice", hashed_password := "h",
                                 avatar_url := none }],
                     products := [], calculations := [] }
        [] "alice" "text/plain" "notes.txt").1.1.httpStatus = 400 ∧
    upload_file [] "image/png" "cat.png" =
      (MediaResult.uploaded "cat.png" "http://localhost:9000/bucket/cat.png",
       ["cat.png"]) := by
  refine ⟨by decide, by decide, by decide, by decide, by decide⟩

end FastAPISecurity
